import Mathlib

/-!
# Verification of the quizzium backend quiz-session engine

Shallow embedding of the quiz/session services of the repository
(`src/services/quizSessionService.ts`, `src/services/quizService.ts`,
`src/services/notificationService.ts` and the models they use), as pure
Lean functions over an explicit document store.  Mongoose documents become
structures, `ObjectId`s become `Nat`, JS numbers become `ℚ`, thrown
`ApiError`s become an error type threaded through `Except`, and every
storage round-trip reads or writes the explicit `Store` value.

Modelling conventions, stated once:
* Localized text maps (`ILocalizedString` / `ILocalizedChoice`) become four
  `Option String` fields; `none` stands for a field that is absent or empty,
  matching the JS truthiness tests (`||` fallbacks) applied to these fields.
* Wall-clock fields (`quizDate`, `publishedAt`, `createdAt`, `updatedAt`) and
  presentation-only media/thumbnail/description fields do not participate in
  any verified property and are left out of the structures.
* The MongoDB `$sample` stage is an external collaborator; it is modelled as
  a `SampleOracle` whose contract is a without-replacement draw, the
  behaviour documented for the storage layer.
-/

/-- `AvailableLanguage` from `utils/types.ts`. -/
inductive Lang
  | fr
  | en
  | ar
  | es
deriving DecidableEq, Repr

/-- A localized string map (`ILocalizedString` / `ILocalizedChoice`).
`none` models an absent-or-empty entry (JS falsy). -/
structure LocalizedText where
  fr : Option String := none
  en : Option String := none
  ar : Option String := none
  es : Option String := none
deriving DecidableEq, Repr

/-- Index a localized map by language. -/
def LocalizedText.get (t : LocalizedText) : Lang → Option String
  | .fr => t.fr
  | .en => t.en
  | .ar => t.ar
  | .es => t.es

/-- `(text)[language] || text[EN]` — the language resolution used when grading
multiple-choice answers in `submitQuizSessionService`. -/
def resolveText (t : LocalizedText) (lang : Lang) : Option String :=
  (t.get lang).orElse (fun _ => t.get .en)

/-- `UserRole` from `utils/types.ts`. -/
inductive UserRole
  | student
  | teacher
  | admin
  | manager
deriving DecidableEq, Repr

/-- `QuestionType` from `utils/types.ts`. -/
inductive QuestionType
  | qcm
  | trueFalse
  | calculation
deriving DecidableEq, Repr

/-- `QuizType` from `utils/types.ts`. -/
inductive QuizType
  | formative
  | summative
  | revision
deriving DecidableEq, Repr

/-- The `difficulty` string literal type. -/
inductive Difficulty
  | easy
  | medium
  | hard
deriving DecidableEq, Repr

/-- `NotificationType` from `utils/types.ts`. -/
inductive NotificationType
  | newEnrollmentPending
  | enrollmentStatusChanged
  | quizGraded
deriving DecidableEq, Repr

/-- `NotificationStatus` from `utils/types.ts`. -/
inductive NotificationStatus
  | unread
  | read
deriving DecidableEq, Repr

/-- A QCM choice (`IChoice` in `models/Question.ts`); media fields omitted. -/
structure Choice where
  text : LocalizedText
  isCorrect : Bool
deriving DecidableEq, Repr

/-- A question document (`IQuestion` in `models/Question.ts`). -/
structure Question where
  id : Nat
  chapter : Nat
  text : LocalizedText
  qtype : QuestionType
  choices : Option (List Choice)
  correctAnswerFormula : Option String
  explanation : Option LocalizedText
  difficulty : Difficulty
  tags : List String
deriving DecidableEq, Repr

/-- A client-facing choice: only the text survives
(`ClientChoiceSchema` in `models/QuizSession.ts`). -/
structure ClientChoice where
  text : LocalizedText
deriving DecidableEq, Repr

/-- The redacted question view sent to a session holder
(`IClientQuestion` in `models/QuizSession.ts`): no `isCorrect` on choices, no
`correctAnswerFormula`, no `explanation`. -/
structure ClientQuestion where
  id : Nat
  text : LocalizedText
  qtype : QuestionType
  choices : Option (List ClientChoice)
  difficulty : Difficulty
  tags : List String
deriving DecidableEq, Repr

/-- Redaction performed by `startQuizSessionService`: keep prompt, type,
difficulty and tags, and map each choice to its text only.  The
`type === QCM && choices` truthiness test keeps `choices` only for QCM
questions (an empty choice array is truthy in JS and is kept). -/
def toClientQuestion (q : Question) : ClientQuestion :=
  { id := q.id
    text := q.text
    qtype := q.qtype
    choices :=
      if q.qtype = QuestionType.qcm then
        q.choices.map (fun cs => cs.map (fun c => { text := c.text }))
      else none
    difficulty := q.difficulty
    tags := q.tags }

/-- Erase every answer-revealing field of a question: all `isCorrect` flags are
forced to `false`, `correctAnswerFormula` and `explanation` are dropped.  Used
to state the redaction invariant: the client view of `q` equals the client view
of `eraseAnswerData q`, hence carries no answer data. -/
def eraseAnswerData (q : Question) : Question :=
  { q with
    choices := q.choices.map (fun cs => cs.map (fun c => { c with isCorrect := false }))
    correctAnswerFormula := none
    explanation := none }

/-- A user document (only the fields the services consult). -/
structure User where
  id : Nat
  role : UserRole
  username : String
deriving DecidableEq, Repr

/-- A `(questionId, score)` manifest entry (`IQuestionWithScore`). -/
structure ManifestEntry where
  questionId : Nat
  score : ℚ
deriving DecidableEq, Repr

/-- A quiz document (`IQuiz` in `models/Quiz.ts`). -/
structure Quiz where
  id : Nat
  training : Nat
  title : LocalizedText
  creator : Nat
  quizType : QuizType
  isPublished : Bool
  durationMinutes : Option ℚ
  deadline : Option Nat
  questions : List ManifestEntry
  globalScore : ℚ
  allowedAttempts : Option Nat
  tags : List String
  isPublic : Bool
  slug : String
deriving DecidableEq, Repr

/-- A training document (`ITraining`, the fields the engine reads). -/
structure Training where
  id : Nat
  teachers : List Nat
  quizzes : List Nat
deriving DecidableEq, Repr

/-- The dynamic `string | string[] | number` answer value. -/
inductive AnswerValue
  | text (s : String)
  | list (l : List String)
  | num (q : ℚ)
deriving DecidableEq, Repr

/-- Model of JS `.toString()` on an answer value.  Strings are returned
unchanged; an array joins its elements with commas; the rendering of a number
is modelled by Lean's rational printing, standing in for JS number formatting
(no verified claim depends on the numeric case). -/
def AnswerValue.jsString : AnswerValue → String
  | .text s => s
  | .list l => String.intercalate "," l
  | .num q => toString q

/-- `Array.isArray(userAnswer) ? userAnswer.map(a => a.toString()) : [userAnswer.toString()]`. -/
def normalizeAnswers : AnswerValue → List String
  | .list l => l
  | .text s => [s]
  | .num q => [AnswerValue.jsString (.num q)]

/-- Either a plain question-id reference (as stored) or the populated
redacted view (as returned to the client). -/
inductive QuestionRef
  | ref (id : Nat)
  | view (q : ClientQuestion)
deriving DecidableEq, Repr

/-- `passStatus` values. -/
inductive PassStatus
  | passed
  | failed
deriving DecidableEq, Repr

/-- One response inside a session (`IQuestionResponse`). -/
structure SessionResponse where
  question : QuestionRef
  userAnswer : AnswerValue
  isCorrect : Bool
  scoreEarned : ℚ
  timeTakenSeconds : ℚ
deriving DecidableEq, Repr

/-- A quiz-session document (`IQuizSession`). -/
structure Session where
  id : Nat
  user : Nat
  quiz : Nat
  totalScoreEarned : ℚ
  maxPossibleScore : ℚ
  quizGlobalScore : ℚ
  finalCalculatedScore : ℚ
  durationSeconds : ℚ
  responses : List SessionResponse
  language : Lang
  isCompleted : Bool
  passStatus : Option PassStatus
  attemptNumber : Nat
deriving DecidableEq, Repr

instance : Inhabited Session :=
  ⟨{ id := 0, user := 0, quiz := 0, totalScoreEarned := 0, maxPossibleScore := 0,
     quizGlobalScore := 0, finalCalculatedScore := 0, durationSeconds := 0,
     responses := [], language := .en, isCompleted := false, passStatus := none,
     attemptNumber := 1 }⟩

/-- A notification document (`INotification`). -/
structure Notification where
  recipient : Nat
  ntype : NotificationType
  message : String
  relatedEntityId : Option Nat
  relatedEntityType : Option String
  status : NotificationStatus
deriving DecidableEq, Repr

/-- The document store: one collection per entity, plus fresh-id counters. -/
structure Store where
  users : List User
  quizzes : List Quiz
  questions : List Question
  trainings : List Training
  sessions : List Session
  notifications : List Notification
  nextSessionId : Nat
  nextQuizId : Nat
deriving DecidableEq, Repr

/-- `User.findById`. -/
def findUser (store : Store) (uid : Nat) : Option User :=
  store.users.find? (fun u => decide (u.id = uid))

/-- `Quiz.findById`. -/
def findQuiz (store : Store) (qid : Nat) : Option Quiz :=
  store.quizzes.find? (fun q => decide (q.id = qid))

/-- `Question.findById` (also the effect of populating a question reference). -/
def findQuestion (store : Store) (qid : Nat) : Option Question :=
  store.questions.find? (fun q => decide (q.id = qid))

/-- `Training.findById`. -/
def findTraining (store : Store) (tid : Nat) : Option Training :=
  store.trainings.find? (fun t => decide (t.id = tid))

/-- `QuizSession.findById`. -/
def findSession (store : Store) (sid : Nat) : Option Session :=
  store.sessions.find? (fun s => decide (s.id = sid))

/-- `QuizSession.countDocuments({ user, quiz })`. -/
def countSessions (store : Store) (uid qid : Nat) : Nat :=
  (store.sessions.filter (fun s => decide (s.user = uid) && decide (s.quiz = qid))).length

/-- The errors thrown by the embedded services (each constructor is one
`throw new ApiError(...)` site relevant to the verified operations). -/
inductive ApiError
  | userNotFound
  | quizNotFound
  | quizNotAccessible
  | attemptsExceeded
  | invalidQuiz
  | sessionNotFound
  | notAuthorizedToSubmit
  | alreadyCompleted
  | invalidDuration
  | sessionQuizMissing
  | questionNotInQuiz (questionId : Nat)
  | sessionUpdateFailed
  | notificationRecipientNotFound
  | creatorNotFound
  | studentsOnlyRevision
  | teachersNoRevision
  | trainingNotFound
  | questionsConfigIncomplete
  | chapterIdsRequired
  | numberOfQuestionsNotPositive
  | insufficientQuestions
  | selectedQuestionsRequired
  | selectedQuestionsNotFound
  | questionsConfigRequired
  | quizUpdateNotAuthorized
  | cannotUpdateSensitiveFields
  | quizMustContainQuestion
  | updateQuestionIdsInvalid
  | publishNotAuthorized
  | revisionCannotBePublished
  | alreadyPublished
  | alreadyUnpublished
deriving DecidableEq, Repr

/-! ## startQuizSessionService (`src/services/quizSessionService.ts`) -/

/-- Input of `startQuizSessionService`. -/
structure StartData where
  user : Nat
  quizId : Nat
  language : Lang
deriving DecidableEq, Repr

/-- The manifest entries whose question documents resolve, paired with the
resolved document — entries whose population fails are skipped by the loop
(`if (!questionDoc || !questionDoc._id) continue`). -/
def foundQuestions (store : Store) (items : List ManifestEntry) : List (Question × ℚ) :=
  items.filterMap (fun it => (findQuestion store it.questionId).map (fun q => (q, it.score)))

/-- The initial response placeholder as persisted (question kept as reference). -/
def initialStoredResponse (q : Question) : SessionResponse :=
  { question := .ref q.id, userAnswer := .text "", isCorrect := false,
    scoreEarned := 0, timeTakenSeconds := 0 }

/-- The initial response placeholder as returned to the caller, with the
question field populated by the redacted view only
(`select: 'text type choices.text difficulty tags'`). -/
def initialViewResponse (q : Question) : SessionResponse :=
  { question := .view (toClientQuestion q), userAnswer := .text "", isCorrect := false,
    scoreEarned := 0, timeTakenSeconds := 0 }

/-- Steps 4–6 of `startQuizSessionService`: build the responses and the max
score, reject a zero max score, persist, and return the populated session. -/
def startSessionCore (store : Store) (d : StartData) (quiz : Quiz) :
    Except ApiError Session × Store :=
  let found := foundQuestions store quiz.questions
  let maxScore : ℚ := (found.map (fun p => p.2)).sum
  if maxScore = 0 then (.error .invalidQuiz, store)
  else
    let stored : Session :=
      { id := store.nextSessionId
        user := d.user
        quiz := d.quizId
        totalScoreEarned := 0
        maxPossibleScore := maxScore
        quizGlobalScore := quiz.globalScore
        finalCalculatedScore := 0
        durationSeconds := 0
        responses := found.map (fun p => initialStoredResponse p.1)
        language := d.language
        isCompleted := false
        passStatus := none
        attemptNumber := countSessions store d.user d.quizId + 1 }
    let store' := { store with
      sessions := store.sessions ++ [stored]
      nextSessionId := store.nextSessionId + 1 }
    (.ok { stored with responses := found.map (fun p => initialViewResponse p.1) }, store')

/-- The attempt-cap guard of `startQuizSessionService`: when
`quiz.allowedAttempts` is set (not null/undefined), the count of prior
sessions for (user, quiz) has reached it. -/
def attemptsBlocked (store : Store) (d : StartData) (quiz : Quiz) : Bool :=
  match quiz.allowedAttempts with
  | some limit => decide (limit ≤ countSessions store d.user d.quizId)
  | none => false

/-- `startQuizSessionService`: validate user and quiz, check access for
students, enforce the attempt cap, then create the session. -/
def startQuizSessionService (store : Store) (d : StartData) :
    Except ApiError Session × Store :=
  match findUser store d.user with
  | none => (.error .userNotFound, store)
  | some user =>
    match findQuiz store d.quizId with
    | none => (.error .quizNotFound, store)
    | some quiz =>
      if user.role = UserRole.student ∧ quiz.isPublished = false ∧
          ¬ (quiz.creator = d.user ∧ quiz.quizType = QuizType.revision) then
        (.error .quizNotAccessible, store)
      else if attemptsBlocked store d quiz then
        (.error .attemptsExceeded, store)
      else startSessionCore store d quiz

/-! ## submitQuizSessionService (`src/services/quizSessionService.ts`) -/

/-- One submitted response, as received by the controller. -/
structure SubmittedResponse where
  question : Nat
  userAnswer : AnswerValue
  timeTakenSeconds : Option ℚ
deriving DecidableEq, Repr

/-- Input of `submitQuizSessionService`. -/
structure SubmitData where
  responses : List SubmittedResponse
  durationSeconds : ℚ
deriving DecidableEq, Repr

/-- JS `Map` lookup over entries inserted left to right: a later entry with
the same key overwrites an earlier one. -/
def jsMapGet (entries : List (Nat × Question × ℚ)) (k : Nat) :
    Option (Question × ℚ) :=
  entries.foldl (fun acc e => if e.1 = k then some e.2 else acc) none

/-- The `quizQuestionsMap` built by `submitQuizSessionService`: manifest
entries whose question document resolves, keyed by question id. -/
def quizQuestionLookup (store : Store) (quiz : Quiz) (qid : Nat) :
    Option (Question × ℚ) :=
  jsMapGet
    (quiz.questions.filterMap (fun it =>
      (findQuestion store it.questionId).map (fun q => (it.questionId, (q, it.score)))))
    qid

/-- The texts of the choices flagged `isCorrect`, resolved in the session's
language with fallback to English (an unresolvable text stays `none`, which no
submitted string can match). -/
def qcmCorrectTexts (choices : List Choice) (lang : Lang) : List (Option String) :=
  (choices.filter (fun c => c.isCorrect)).map (fun c => resolveText c.text lang)

/-- QCM grading: the submitted values (normalized to a list of strings) are
correct iff the two LISTS have equal length and every submitted value occurs
among the correct texts (`length === && every(includes)`). -/
def gradeQCM (lang : Lang) (choices : List Choice) (ans : AnswerValue) : Bool :=
  let correctTexts := qcmCorrectTexts choices lang
  let userAnswers := normalizeAnswers ans
  decide (correctTexts.length = userAnswers.length) &&
    userAnswers.all (fun ua => correctTexts.contains (some ua))

/-- Per-question grading dispatch of `submitQuizSessionService`: QCM compares
answer sets of texts, Calculation compares the `.toString()` of the answer with
the formula, anything else is incorrect.  The `question.correctAnswerFormula`
truthiness test is the `some` match (`none` models absent-or-empty). -/
def gradeAnswer (lang : Lang) (q : Question) (ans : AnswerValue) : Bool :=
  match q.qtype, q.choices with
  | QuestionType.qcm, some cs => gradeQCM lang cs ans
  | _, _ =>
    match q.qtype, q.correctAnswerFormula with
    | QuestionType.calculation, some f => decide (ans.jsString = f)
    | _, _ => false

/-- The graded response record pushed into `updatedResponses`: the question is
stored back as a plain reference. -/
def gradedResponse (lang : Lang) (q : Question) (score : ℚ)
    (sr : SubmittedResponse) : SessionResponse :=
  let ok := gradeAnswer lang q sr.userAnswer
  { question := .ref sr.question
    userAnswer := sr.userAnswer
    isCorrect := ok
    scoreEarned := if ok then score else 0
    timeTakenSeconds := sr.timeTakenSeconds.getD 0 }

/-- The grading loop: look every submitted response up in the quiz's question
map (failing with `InvalidQuestion` on a miss), grade it, and accumulate the
total earned score. -/
def gradeResponses (store : Store) (quiz : Quiz) (lang : Lang) :
    List SubmittedResponse → Except ApiError (List SessionResponse × ℚ)
  | [] => .ok ([], 0)
  | sr :: rest =>
    match quizQuestionLookup store quiz sr.question with
    | none => .error (.questionNotInQuiz sr.question)
    | some (q, score) =>
      match gradeResponses store quiz lang rest with
      | .error e => .error e
      | .ok (rs, total) =>
        .ok (gradedResponse lang q score sr :: rs,
          (if gradeAnswer lang q sr.userAnswer then score else 0) + total)

/-- `finalCalculatedScore = maxPossibleScore > 0 ? total / max * global : 0`. -/
def finalScoreOf (total maxScore global : ℚ) : ℚ :=
  if 0 < maxScore then total / maxScore * global else 0

/-- `passStatus = final / global >= 0.7 ? 'passed' : 'failed'`. -/
def passStatusOf (finalScore global : ℚ) : PassStatus :=
  if (7 : ℚ) / 10 ≤ finalScore / global then .passed else .failed

/-- The field assignments of the completing `findByIdAndUpdate`. -/
def completeSession (s : Session) (responses : List SessionResponse)
    (total finalScore duration : ℚ) (pass : PassStatus) : Session :=
  { s with
    responses := responses
    totalScoreEarned := total
    finalCalculatedScore := finalScore
    durationSeconds := duration
    isCompleted := true
    passStatus := some pass }

/-- The `findByIdAndUpdate` at the end of `submitQuizSessionService`: keyed on
the session id ALONE — the update does not re-test `isCompleted`; it
overwrites the matching document unconditionally and returns it (`new: true`),
or `none` when the id no longer resolves. -/
def submitWrite (store : Store) (sessionId : Nat) (responses : List SessionResponse)
    (total finalScore duration : ℚ) (pass : PassStatus) : Store × Option Session :=
  match findSession store sessionId with
  | none => (store, none)
  | some s =>
    let s' := completeSession s responses total finalScore duration pass
    ({ store with
        sessions := store.sessions.map (fun t => if t.id = sessionId then s' else t) },
      some s')

/-- Populate `responses.question` with the redacted view
(`select: 'text type choices.text difficulty tags'`); a reference that no
longer resolves is left as the plain reference. -/
def populateResponses (store : Store) (s : Session) : Session :=
  { s with
    responses := s.responses.map (fun r =>
      match r.question with
      | .ref qid =>
        match findQuestion store qid with
        | some q => { r with question := .view (toClientQuestion q) }
        | none => r
      | .view _ => r) }

/-- `createNotificationService` (`src/services/notificationService.ts`):
validates the recipient, then persists an unread notification.  A missing
recipient THROWS (404) — the error is not caught anywhere. -/
def createNotificationService (store : Store) (recipientId : Nat)
    (ntype : NotificationType) (message : String) (relatedEntityId : Nat)
    (relatedEntityType : String) : Except ApiError Notification × Store :=
  match findUser store recipientId with
  | none => (.error .notificationRecipientNotFound, store)
  | some _ =>
    let n : Notification :=
      { recipient := recipientId, ntype := ntype, message := message,
        relatedEntityId := some relatedEntityId,
        relatedEntityType := some relatedEntityType,
        status := .unread }
    (.ok n, { store with notifications := store.notifications ++ [n] })

/-- JS `Set` built by successive insertions: keeps first occurrences in order. -/
def jsSetList (xs : List Nat) : List Nat :=
  xs.foldl (fun acc x => if x ∈ acc then acc else acc ++ [x]) []

/-- The notification text of `submitQuizSessionService` (quiz title resolved in
French; an absent title renders as JS `undefined`). -/
def gradedMessage (quizTitle : Option String) (username : String) : String :=
  "De nouveaux resultats sont disponibles pour le quiz \"" ++ quizTitle.getD "undefined" ++
    "\". L'etudiant " ++ username ++ " a termine sa session."

/-- The notification loop at the end of `submitQuizSessionService`: one
`createNotificationService` call per recipient, awaited in order, with NO
try/catch — the first failure propagates out of the submit call. -/
def notifyAll (store : Store) (sessionId : Nat) (message : String) :
    List Nat → Except ApiError Unit × Store
  | [] => (.ok (), store)
  | r :: rest =>
    match createNotificationService store r .quizGraded message sessionId "QuizSession" with
    | (.error e, store') => (.error e, store')
    | (.ok _, store') => notifyAll store' sessionId message rest

/-- The initial read-and-validate phase of `submitQuizSessionService`: resolve
the session, check ownership, check `isCompleted`, check the duration, resolve
the associated quiz.  This is the ONLY place `isCompleted` is consulted. -/
def submitChecks (store : Store) (sessionId : Nat) (d : SubmitData)
    (requestingUserId : Nat) : Except ApiError (Session × Quiz) :=
  match findSession store sessionId with
  | none => .error .sessionNotFound
  | some session =>
    if session.user ≠ requestingUserId then .error .notAuthorizedToSubmit
    else if session.isCompleted then .error .alreadyCompleted
    else if d.durationSeconds < 0 then .error .invalidDuration
    else
      match findQuiz store session.quiz with
      | none => .error .sessionQuizMissing
      | some quiz => .ok (session, quiz)

/-- Everything `submitQuizSessionService` does after its initial read returned
the snapshot `(session, quiz)`: grade, aggregate, write the completed session
back (keyed on id only), then notify the quiz creator and the training's
teachers.  A notification failure propagates AFTER the write has been
persisted. -/
def submitAfterRead (store : Store) (sessionId : Nat) (d : SubmitData)
    (session : Session) (quiz : Quiz) : Except ApiError Session × Store :=
  match gradeResponses store quiz session.language d.responses with
  | .error e => (.error e, store)
  | .ok (updatedResponses, total) =>
    let finalScore := finalScoreOf total session.maxPossibleScore session.quizGlobalScore
    let pass := passStatusOf finalScore session.quizGlobalScore
    match submitWrite store sessionId updatedResponses total finalScore
        d.durationSeconds pass with
    | (store₁, none) => (.error .sessionUpdateFailed, store₁)
    | (store₁, some updated) =>
      let returned := populateResponses store₁ updated
      let teachers := ((findTraining store₁ quiz.training).map Training.teachers).getD []
      let username := ((findUser store₁ updated.user).map User.username).getD "undefined"
      let message := gradedMessage (quiz.title.get .fr) username
      match notifyAll store₁ updated.id message (jsSetList (quiz.creator :: teachers)) with
      | (.error e, store₂) => (.error e, store₂)
      | (.ok _, store₂) => (.ok returned, store₂)

/-- `submitQuizSessionService`: read and validate, then grade, persist and
notify. -/
def submitQuizSessionService (store : Store) (sessionId : Nat) (d : SubmitData)
    (requestingUserId : Nat) : Except ApiError Session × Store :=
  match submitChecks store sessionId d requestingUserId with
  | .error e => (.error e, store)
  | .ok (session, quiz) => submitAfterRead store sessionId d session quiz

/-- Two `submitQuizSessionService` calls racing on the same session id, in the
schedule where BOTH initial reads happen before either write: each call's
remainder then runs from its (identical) read snapshot, the second against the
store the first produced.  This is expressible because the code's only guard is
the `isCompleted` test inside the initial read. -/
def submitRace (store : Store) (sessionId : Nat) (d : SubmitData)
    (requestingUserId : Nat) :
    (Except ApiError Session × Except ApiError Session) × Store :=
  match submitChecks store sessionId d requestingUserId with
  | .error e => ((.error e, .error e), store)
  | .ok (session, quiz) =>
    let first := submitAfterRead store sessionId d session quiz
    let second := submitAfterRead first.2 sessionId d session quiz
    ((first.1, second.1), second.2)

/-! ## Quiz definition services (`src/services/quizService.ts`) -/

/-- The `questionsConfig` union of `CreateQuizData`; `generate` carries chapter
ids, a count and an optional difficulty filter, `select` carries
`(questionId, score?)` pairs. -/
inductive QuestionsConfig
  | generate (chapterIds : List Nat) (numberOfQuestions : Nat)
      (difficulty : Option Difficulty)
  | select (selected : List (Nat × Option ℚ))
deriving DecidableEq, Repr

/-- Input of `createQuizService` (presentation-only fields omitted). -/
structure CreateQuizData where
  trainingId : Nat
  title : LocalizedText
  creatorId : Nat
  quizType : QuizType
  slug : String
  deadline : Option Nat
  durationMinutes : Option ℚ
  globalScore : ℚ
  allowedAttempts : Option Nat
  tags : List String
  questionsConfig : Option QuestionsConfig
  isPublic : Bool
deriving DecidableEq, Repr

/-- `allowedAttempts || null`: a JS-falsy value (absent or 0) becomes null. -/
def jsOrNullNat : Option Nat → Option Nat
  | some 0 => none
  | x => x

/-- The questions matching a `generate` request: drawn from the given
chapters, optionally filtered by difficulty (the `$match` stage). -/
def matchingQuestions (store : Store) (chapterIds : List Nat)
    (difficulty : Option Difficulty) : List Question :=
  store.questions.filter (fun q =>
    decide (q.chapter ∈ chapterIds) &&
      match difficulty with
      | some diff => decide (q.difficulty = diff)
      | none => true)

/-- The external `$sample` stage, specified only at its interface boundary: a
uniform WITHOUT-REPLACEMENT draw from the matched documents.  The bundled
contract is what the storage layer documents: the draw has size
`min n |pool|`, takes its elements from the pool, and repeats no document
(ids stay distinct when the pool's ids are distinct).  Which draw comes back
is the oracle's choice — the distribution itself lives outside the model. -/
structure SampleOracle where
  sample : List Question → Nat → List Question
  length_sample : ∀ pool n, (sample pool n).length = min n pool.length
  mem_sample : ∀ pool n q, q ∈ sample pool n → q ∈ pool
  nodup_sample : ∀ pool n, (pool.map Question.id).Nodup →
    ((sample pool n).map Question.id).Nodup

/-- `generateQuestionsForQuiz`: validate the request, draw the sample and fail
with `InsufficientQuestions` when it comes back short; every drawn question
gets the default score 1. -/
def generateQuestionsForQuiz (oracle : SampleOracle) (store : Store)
    (chapterIds : List Nat) (numberOfQuestions : Nat)
    (difficulty : Option Difficulty) : Except ApiError (List ManifestEntry) :=
  if chapterIds = [] then .error .chapterIdsRequired
  else if numberOfQuestions = 0 then .error .numberOfQuestionsNotPositive
  else
    let drawn := oracle.sample (matchingQuestions store chapterIds difficulty)
      numberOfQuestions
    if drawn.length < numberOfQuestions then .error .insufficientQuestions
    else .ok (drawn.map (fun q => { questionId := q.id, score := 1 }))

/-- The documents `Question.find({_id: {$in: ids}})` returns: each stored
question whose id occurs in the list, each at most once (so duplicated
requested ids shrink the count). -/
def questionsWithIdIn (store : Store) (ids : List Nat) : List Question :=
  store.questions.filter (fun q => decide (q.id ∈ ids))

/-- The question list of a `select` request: every id must resolve, the
default score is 1 when omitted. -/
def selectQuestionsForQuiz (store : Store) (selected : List (Nat × Option ℚ)) :
    Except ApiError (List ManifestEntry) :=
  if selected = [] then .error .selectedQuestionsRequired
  else if (questionsWithIdIn store (selected.map Prod.fst)).length ≠ selected.length then
    .error .selectedQuestionsNotFound
  else .ok (selected.map (fun p => { questionId := p.1, score := p.2.getD 1 }))

/-- `createQuizService`: validate the creator and the role/type policy,
resolve the training, build the manifest via `generate` or `select`, and
persist the quiz — ALWAYS unpublished (`isPublished` is false on every path),
registering it on the training. -/
def createQuizService (oracle : SampleOracle) (store : Store)
    (d : CreateQuizData) : Except ApiError Quiz × Store :=
  match findUser store d.creatorId with
  | none => (.error .creatorNotFound, store)
  | some creator =>
    if creator.role = UserRole.student ∧ d.quizType ≠ QuizType.revision then
      (.error .studentsOnlyRevision, store)
    else if creator.role = UserRole.teacher ∧ d.quizType = QuizType.revision then
      (.error .teachersNoRevision, store)
    else
      match findTraining store d.trainingId with
      | none => (.error .trainingNotFound, store)
      | some training =>
        let manifest : Except ApiError (List ManifestEntry) :=
          match d.questionsConfig with
          | some (.generate chapterIds n difficulty) =>
            if chapterIds = [] ∨ n = 0 then .error .questionsConfigIncomplete
            else generateQuestionsForQuiz oracle store chapterIds n difficulty
          | some (.select selected) => selectQuestionsForQuiz store selected
          | none => .error .questionsConfigRequired
        match manifest with
        | .error e => (.error e, store)
        | .ok quizQuestions =>
          let newQuiz : Quiz :=
            { id := store.nextQuizId
              training := d.trainingId
              title := d.title
              creator := d.creatorId
              quizType := d.quizType
              isPublished := false
              durationMinutes := d.durationMinutes
              deadline := d.deadline
              questions := quizQuestions
              globalScore := d.globalScore
              allowedAttempts := jsOrNullNat d.allowedAttempts
              tags := d.tags
              isPublic := d.isPublic
              slug := d.slug }
          let training' := { training with quizzes := training.quizzes ++ [newQuiz.id] }
          (.ok newQuiz,
            { store with
              quizzes := store.quizzes ++ [newQuiz]
              trainings := store.trainings.map (fun t =>
                if t.id = training.id then training' else t)
              nextQuizId := store.nextQuizId + 1 })

/-- Input of `updateQuizService`.  An outer `none` models a field left
`undefined`; for the nullable fields the inner `Option` carries the assigned
value (`some none` assigns null).  `isPublished` is accepted by the interface
but — like `quizType` — is NEVER applied by the service. -/
structure UpdateQuizData where
  title : Option LocalizedText
  deadline : Option (Option Nat)
  isPublished : Option Bool
  durationMinutes : Option (Option ℚ)
  globalScore : Option ℚ
  allowedAttempts : Option (Option Nat)
  tags : Option (List String)
  questions : Option (List ManifestEntry)
  isPublic : Option Bool
deriving DecidableEq, Repr

/-- The requester identity the services receive. -/
structure Requester where
  id : Nat
  role : UserRole
deriving DecidableEq, Repr

/-- The sensitive-field test of `updateQuizService`: `questions`,
`globalScore`, `durationMinutes` or `allowedAttempts` supplied (`quizType` is
also listed in the source but does not exist on the update payload). -/
def touchesSensitiveFields (d : UpdateQuizData) : Prop :=
  d.questions.isSome ∨ d.globalScore.isSome ∨ d.durationMinutes.isSome ∨
    d.allowedAttempts.isSome

instance (d : UpdateQuizData) : Decidable (touchesSensitiveFields d) := by
  unfold touchesSensitiveFields
  infer_instance

/-- Apply the non-question field assignments of `updateQuizService` to a quiz:
neither `isPublished` nor `quizType` is ever written. -/
def applyQuizUpdate (quiz : Quiz) (d : UpdateQuizData)
    (questions : List ManifestEntry) : Quiz :=
  { quiz with
    title := d.title.getD quiz.title
    deadline := match d.deadline with | some v => v | none => quiz.deadline
    durationMinutes := match d.durationMinutes with | some v => v | none => quiz.durationMinutes
    globalScore := d.globalScore.getD quiz.globalScore
    allowedAttempts := match d.allowedAttempts with | some v => v | none => quiz.allowedAttempts
    tags := d.tags.getD quiz.tags
    isPublic := d.isPublic.getD quiz.isPublic
    questions := questions }

/-- `updateQuizService`: only the creator or an admin/manager may update; a
published quiz's sensitive fields are frozen for non-admins; a supplied
question list must be non-empty and fully resolvable. -/
def updateQuizService (store : Store) (quizId : Nat) (d : UpdateQuizData)
    (requester : Requester) : Except ApiError Quiz × Store :=
  match findQuiz store quizId with
  | none => (.error .quizNotFound, store)
  | some quiz =>
    if ¬ (quiz.creator = requester.id) ∧
        ¬ (requester.role = UserRole.admin ∨ requester.role = UserRole.manager) then
      (.error .quizUpdateNotAuthorized, store)
    else if quiz.isPublished = true ∧
        ¬ (requester.role = UserRole.admin ∨ requester.role = UserRole.manager) ∧
        touchesSensitiveFields d then
      (.error .cannotUpdateSensitiveFields, store)
    else
      let questionCheck : Except ApiError (List ManifestEntry) :=
        match d.questions with
        | none => .ok quiz.questions
        | some qs =>
          if qs = [] then .error .quizMustContainQuestion
          else if (questionsWithIdIn store (qs.map ManifestEntry.questionId)).length
              ≠ qs.length then
            .error .updateQuestionIdsInvalid
          else .ok qs
      match questionCheck with
      | .error e => (.error e, store)
      | .ok qs =>
        let quiz' := applyQuizUpdate quiz d qs
        (.ok quiz',
          { store with
            quizzes := store.quizzes.map (fun q => if q.id = quizId then quiz' else q) })

/-- `publishQuizService`: only the creating teacher or an admin/manager may
flip the flag; a revision quiz can never be published; re-publishing or
re-unpublishing is rejected. -/
def publishQuizService (store : Store) (quizId : Nat) (publishStatus : Bool)
    (requester : Requester) : Except ApiError Quiz × Store :=
  match findQuiz store quizId with
  | none => (.error .quizNotFound, store)
  | some quiz =>
    if ¬ (quiz.creator = requester.id ∧ requester.role = UserRole.teacher) ∧
        ¬ (requester.role = UserRole.admin ∨ requester.role = UserRole.manager) then
      (.error .publishNotAuthorized, store)
    else if quiz.quizType = QuizType.revision ∧ publishStatus = true then
      (.error .revisionCannotBePublished, store)
    else if publishStatus = true ∧ quiz.isPublished = true then
      (.error .alreadyPublished, store)
    else if publishStatus = false ∧ quiz.isPublished = false then
      (.error .alreadyUnpublished, store)
    else
      let quiz' := { quiz with isPublished := publishStatus }
      (.ok quiz',
        { store with
          quizzes := store.quizzes.map (fun q => if q.id = quizId then quiz' else q) })

/-! ## Decidability of result comparison -/

instance {ε α : Type} [DecidableEq ε] [DecidableEq α] : DecidableEq (Except ε α) := fun x y =>
  match x, y with
  | .ok a, .ok b =>
    if h : a = b then .isTrue (by rw [h]) else .isFalse (by intro hc; cases hc; exact h rfl)
  | .error a, .error b =>
    if h : a = b then .isTrue (by rw [h]) else .isFalse (by intro hc; cases hc; exact h rfl)
  | .ok _, .error _ => .isFalse (by intro hc; cases hc)
  | .error _, .ok _ => .isFalse (by intro hc; cases hc)

/-! ## The spec's set-equality grading criterion

For the multi-select comparison the spec asks for SET equality — "same size
and same content, order-independent".  This definition follows the spec's
words (not the source) so the source's grading can be compared against it. -/

/-- Modelled from the spec: the set of submitted answer values equals the set
of correct choice texts — same elements, order-independent (submitted strings
are injected with `some` to compare against possibly-unresolvable texts). -/
def specAnswerSetEq (userAnswers : List String)
    (correctTexts : List (Option String)) : Prop :=
  (userAnswers.map Option.some).toFinset = correctTexts.toFinset

instance (u : List String) (c : List (Option String)) :
    Decidable (specAnswerSetEq u c) := by
  unfold specAnswerSetEq
  infer_instance

/-! ## Concrete fixtures used by witnesses and counterexamples -/

/-- An English-only localized text. -/
def mkText (s : String) : LocalizedText :=
  { fr := none, en := some s, ar := none, es := none }

/-- A QCM choice with an English text. -/
def mkChoice (s : String) (ok : Bool) : Choice :=
  { text := mkText s, isCorrect := ok }

/-- A QCM question in chapter 1 whose choices are `a` (correct) and `b`. -/
def mkQcmQuestion (id : Nat) : Question :=
  { id := id, chapter := 1, text := mkText "prompt", qtype := .qcm,
    choices := some [mkChoice "a" true, mkChoice "b" false],
    correctAnswerFormula := none, explanation := some (mkText "why"),
    difficulty := .medium, tags := ["tag"] }

/-- A published 4-question quiz (1 point each) weighted onto 20, created by
teacher 2 in training 1. -/
def exQuiz : Quiz :=
  { id := 1, training := 1, title := mkText "quiz", creator := 2,
    quizType := .formative, isPublished := true, durationMinutes := none,
    deadline := some 0,
    questions := [⟨11, 1⟩, ⟨12, 1⟩, ⟨13, 1⟩, ⟨14, 1⟩],
    globalScore := 20, allowedAttempts := none, tags := [], isPublic := false,
    slug := "quiz" }

/-- An empty response placeholder for a referenced question. -/
def blankResponse (qid : Nat) : SessionResponse :=
  { question := .ref qid, userAnswer := .text "", isCorrect := false,
    scoreEarned := 0, timeTakenSeconds := 0 }

/-- A fresh (not yet completed) session of `exQuiz` for user 1. -/
def exSession : Session :=
  { id := 1, user := 1, quiz := 1, totalScoreEarned := 0, maxPossibleScore := 4,
    quizGlobalScore := 20, finalCalculatedScore := 0, durationSeconds := 0,
    responses := [11, 12, 13, 14].map blankResponse,
    language := .en, isCompleted := false, passStatus := none, attemptNumber := 1 }

/-- Store: student 1, teacher 2 (quiz creator and training teacher), four
questions, the quiz and one fresh session. -/
def exStore : Store :=
  { users := [⟨1, .student, "alice"⟩, ⟨2, .teacher, "bob"⟩],
    quizzes := [exQuiz],
    questions := [11, 12, 13, 14].map mkQcmQuestion,
    trainings := [⟨1, [2], [1]⟩],
    sessions := [exSession],
    notifications := [], nextSessionId := 2, nextQuizId := 2 }

/-- A submission answering questions 11–13 correctly and 14 incorrectly. -/
def exSubmit : SubmitData :=
  { responses := [⟨11, .text "a", some 3⟩, ⟨12, .text "a", none⟩,
      ⟨13, .text "a", none⟩, ⟨14, .text "b", none⟩],
    durationSeconds := 10 }

/-- The session returned by the example submission. -/
def exSubmitResult : Session :=
  (submitQuizSessionService exStore 1 exSubmit 1).1.toOption.getD default

/-- The store produced by the example submission. -/
def exSubmitStore : Store :=
  (submitQuizSessionService exStore 1 exSubmit 1).2

/-- `exStore` before any session exists (used for start-session witnesses). -/
def exStartStore : Store :=
  { exStore with sessions := [] }

/-- The session returned by starting a session on `exStartStore`. -/
def exStartResult : Session :=
  (startQuizSessionService exStartStore ⟨1, 1, .en⟩).1.toOption.getD default

/-- The store produced by that start call. -/
def exStartStoreAfter : Store :=
  (startQuizSessionService exStartStore ⟨1, 1, .en⟩).2

/-- The two choices of the multi-select counterexample question: both `a` and
`b` are correct. -/
def c2Choices : List Choice :=
  [mkChoice "a" true, mkChoice "b" true]

/-- A QCM question with TWO correct choices (`a` and `b`). -/
def c2Question : Question :=
  { id := 21, chapter := 1, text := mkText "pick both", qtype := .qcm,
    choices := some c2Choices,
    correctAnswerFormula := none, explanation := none,
    difficulty := .easy, tags := [] }

/-- A one-question quiz over the two-correct-choices question. -/
def c2Quiz : Quiz :=
  { exQuiz with questions := [⟨21, 1⟩] }

/-- Store for the multi-select grading analysis: one fresh session over
`c2Quiz`. -/
def c2Store : Store :=
  { exStore with
    quizzes := [c2Quiz],
    questions := [c2Question],
    sessions := [{ exSession with
      maxPossibleScore := 1
      responses := [blankResponse 21] }] }

/-- Submitting the SAME correct text twice for the two-correct-choice question. -/
def c2DupSubmit : SubmitData :=
  { responses := [⟨21, .list ["a", "a"], none⟩], durationSeconds := 5 }

/-- Submitting only one of the two correct choices. -/
def c2OneSubmit : SubmitData :=
  { responses := [⟨21, .list ["a"], none⟩], durationSeconds := 5 }

/-- The session returned when the duplicate submission is graded. -/
def c2DupResult : Session :=
  (submitQuizSessionService c2Store 1 c2DupSubmit 1).1.toOption.getD default

/-- The session returned when the one-of-two submission is graded. -/
def c2OneResult : Session :=
  (submitQuizSessionService c2Store 1 c2OneSubmit 1).1.toOption.getD default

/-- `exStore` with the quiz's creator set to the nonexistent user 99: grading
succeeds but the completion notification cannot resolve its recipient. -/
def c6Store : Store :=
  { exStore with quizzes := [{ exQuiz with creator := 99 }] }

/-- A quiz capped at two attempts. -/
def c5Quiz : Quiz :=
  { exQuiz with allowedAttempts := some 2 }

/-- Store with the capped quiz and ONE prior session for (user 1, quiz 1). -/
def c5Store : Store :=
  { exStore with quizzes := [c5Quiz] }

/-- Store with the capped quiz and TWO prior sessions for (user 1, quiz 1). -/
def c5StoreFull : Store :=
  { exStore with
    quizzes := [c5Quiz],
    sessions := [exSession, { exSession with id := 5, isCompleted := true }] }

/-- The session returned by starting on `c5Store` (one prior session). -/
def c5StartResult : Session :=
  (startQuizSessionService c5Store ⟨1, 1, .en⟩).1.toOption.getD default

/-- A two-question quiz store for the duplicate-response analysis. -/
def c10Store : Store :=
  { exStore with
    quizzes := [{ exQuiz with questions := [⟨11, 1⟩, ⟨12, 1⟩] }],
    sessions := [{ exSession with
      maxPossibleScore := 2
      responses := [11, 12].map blankResponse }] }

/-- The same correctly-answered question id submitted three times; question 12
is never answered. -/
def c10Submit : SubmitData :=
  { responses := [⟨11, .text "a", none⟩, ⟨11, .text "a", none⟩,
      ⟨11, .text "a", none⟩],
    durationSeconds := 7 }

/-- The session returned by the duplicate-heavy submission. -/
def c10Result : Session :=
  (submitQuizSessionService c10Store 1 c10Submit 1).1.toOption.getD default

/-- A deterministic witness for the sampling oracle: take the first `n`
matches.  Its contract proofs show it is a without-replacement draw. -/
def takeOracle : SampleOracle where
  sample := fun pool n => pool.take n
  length_sample := fun pool n => List.length_take n pool
  mem_sample := fun pool n q h => List.take_subset n pool h
  nodup_sample := fun pool n h => by
    have hsub : List.Sublist ((pool.take n).map Question.id) (pool.map Question.id) :=
      (List.take_sublist n pool).map Question.id
    exact h.sublist hsub

/-- The quiz of `c6Store` (creator 99 does not exist as a user). -/
def c6Quiz : Quiz :=
  { exQuiz with creator := 99 }

/-- The graded responses and total for the `c6Store` submission. -/
def c6Graded : List SessionResponse × ℚ :=
  (gradeResponses c6Store c6Quiz .en exSubmit.responses).toOption.getD ([], 0)

/-- The completed session persisted by the example submission. -/
def exCompletedSession : Session :=
  (findSession exSubmitStore 1).getD default

/-- The invariant of C7: no stored revision quiz is published. -/
def RevisionNeverPublished (store : Store) : Prop :=
  ∀ q ∈ store.quizzes, q.quizType = QuizType.revision → q.isPublished = false

/-- One quiz-mutating service call, with any arguments and either outcome:
the operations through which a quiz's published flag could ever change. -/
inductive QuizOpStep : Store → Store → Prop
  | create (oracle : SampleOracle) (store : Store) (d : CreateQuizData)
      (result : Except ApiError Quiz) (store' : Store)
      (h : createQuizService oracle store d = (result, store')) :
      QuizOpStep store store'
  | update (store : Store) (quizId : Nat) (d : UpdateQuizData) (r : Requester)
      (result : Except ApiError Quiz) (store' : Store)
      (h : updateQuizService store quizId d r = (result, store')) :
      QuizOpStep store store'
  | publish (store : Store) (quizId : Nat) (status : Bool) (r : Requester)
      (result : Except ApiError Quiz) (store' : Store)
      (h : publishQuizService store quizId status r = (result, store')) :
      QuizOpStep store store'

instance (store : Store) : Decidable (RevisionNeverPublished store) := by
  unfold RevisionNeverPublished
  infer_instance

/-- Store for the C7 witness: a student about to create a revision quiz. -/
def c7Store : Store :=
  { users := [⟨1, .student, "alice"⟩], quizzes := [], questions := [mkQcmQuestion 11],
    trainings := [⟨1, [], []⟩], sessions := [], notifications := [],
    nextSessionId := 1, nextQuizId := 1 }

/-- A student-authored revision quiz request over question 11. -/
def c7CreateData : CreateQuizData :=
  { trainingId := 1, title := mkText "rev", creatorId := 1, quizType := .revision,
    slug := "rev", deadline := none, durationMinutes := none, globalScore := 20,
    allowedAttempts := none, tags := [],
    questionsConfig := some (.select [(11, none)]), isPublic := false }

/-- The store after the student created the revision quiz. -/
def c7StoreAfter : Store :=
  (createQuizService takeOracle c7Store c7CreateData).2

/-- Store for the C8 witness: an admin, one training, and exactly two
questions in chapter 1. -/
def c8Store : Store :=
  { users := [⟨5, .admin, "root"⟩], quizzes := [],
    questions := [mkQcmQuestion 31, mkQcmQuestion 32],
    trainings := [⟨1, [], []⟩], sessions := [], notifications := [],
    nextSessionId := 1, nextQuizId := 1 }

/-- A `generate` quiz request over chapter 1 asking for `n` questions. -/
def c8Data (n : Nat) : CreateQuizData :=
  { trainingId := 1, title := mkText "gen", creatorId := 5, quizType := .formative,
    slug := "gen", deadline := none, durationMinutes := none, globalScore := 20,
    allowedAttempts := none, tags := [],
    questionsConfig := some (.generate [1] n none), isPublic := false }

/-! ## Theorems -/

/-- The redacted view is blind to answer data: erasing every `isCorrect` flag,
the formula and the explanation leaves it unchanged, so it cannot carry them. -/
theorem toClientQuestion_blind (q : Question) :
    toClientQuestion (eraseAnswerData q) = toClientQuestion q := by
  unfold toClientQuestion eraseAnswerData
  cases q.choices with
  | none => rfl
  | some cs =>
    have hmap : ((fun c : Choice => ({ text := c.text } : ClientChoice)) ∘
        (fun c : Choice => { c with isCorrect := false })) =
        (fun c : Choice => ({ text := c.text } : ClientChoice)) := by
      funext c
      rfl
    simp [List.map_map, hmap]

/-- A question found by id is a stored question. -/
theorem findQuestion_mem {store : Store} {qid : Nat} {q : Question}
    (h : findQuestion store qid = some q) : q ∈ store.questions :=
  List.mem_of_find?_eq_some h

/-- C1.  Redaction invariant of `startSession`: every response of a returned
session embeds the view `toClientQuestion q` of a stored question — a view
whose type has no `isCorrect`, `correctAnswerFormula` or `explanation` field,
whose choices carry only their text, and which is invariant under erasing all
answer data from the source question, so no answer data reaches the caller. -/
theorem startSession_redacts_answer_data
    (store : Store) (d : StartData) (sess : Session) (store' : Store)
    (h : startQuizSessionService store d = (.ok sess, store')) :
    ∀ r ∈ sess.responses, ∃ q, q ∈ store.questions ∧
      r.question = .view (toClientQuestion q) ∧
      toClientQuestion q = toClientQuestion (eraseAnswerData q) := by
  unfold startQuizSessionService at h
  split at h
  · simp at h
  · split at h
    · simp at h
    · rename_i user hu quiz hq
      split at h
      · simp at h
      · split at h
        · simp at h
        · unfold startSessionCore at h
          dsimp only at h
          split at h
          · simp at h
          · simp only [Prod.mk.injEq, Except.ok.injEq] at h
            obtain ⟨hsess, -⟩ := h
            subst hsess
            intro r hr
            simp only [List.mem_map] at hr
            obtain ⟨p, hp, rfl⟩ := hr
            unfold foundQuestions at hp
            rw [List.mem_filterMap] at hp
            obtain ⟨it, -, hit⟩ := hp
            rw [Option.map_eq_some'] at hit
            obtain ⟨q, hfind, hqp⟩ := hit
            refine ⟨q, findQuestion_mem hfind, ?_, (toClientQuestion_blind q).symm⟩
            rw [← hqp]
            rfl

/-- Witness for C1: on the concrete store the start call succeeds and the
theorem applies to its four responses. -/
theorem startSession_redacts_answer_data_witness :
    exStartResult.responses ≠ [] ∧
    (∀ r ∈ exStartResult.responses, ∃ q, q ∈ exStartStore.questions ∧
      r.question = .view (toClientQuestion q) ∧
      toClientQuestion q = toClientQuestion (eraseAnswerData q)) :=
  ⟨by with_unfolding_all decide, startSession_redacts_answer_data exStartStore ⟨1, 1, .en⟩
    exStartResult exStartStoreAfter (by with_unfolding_all rfl)⟩

/-- C5.  Attempt-cap enforcement: with `allowedAttempts` set on a resolvable,
accessible quiz, a prior-session count at or above the cap makes `startSession`
reject with `AttemptsExceeded` leaving the store untouched; any successful
start numbers its session `1 + prior count`. -/
theorem startSession_attempt_cap
    (store : Store) (d : StartData) (user : User) (quiz : Quiz) (limit : Nat)
    (hu : findUser store d.user = some user)
    (hq : findQuiz store d.quizId = some quiz)
    (hacc : ¬ (user.role = UserRole.student ∧ quiz.isPublished = false ∧
      ¬ (quiz.creator = d.user ∧ quiz.quizType = QuizType.revision)))
    (hatt : quiz.allowedAttempts = some limit) :
    (limit ≤ countSessions store d.user d.quizId →
      startQuizSessionService store d = (.error .attemptsExceeded, store)) ∧
    (∀ sess store', startQuizSessionService store d = (.ok sess, store') →
      sess.attemptNumber = countSessions store d.user d.quizId + 1) := by
  constructor
  · intro hcount
    have hb : attemptsBlocked store d quiz = true := by
      unfold attemptsBlocked
      rw [hatt]
      simpa using hcount
    simp only [startQuizSessionService, hu, hq]
    rw [if_neg hacc, if_pos hb]
  · intro sess store' h
    simp only [startQuizSessionService, hu, hq] at h
    rw [if_neg hacc] at h
    split at h
    · simp at h
    · unfold startSessionCore at h
      dsimp only at h
      split at h
      · simp at h
      · simp only [Prod.mk.injEq, Except.ok.injEq] at h
        obtain ⟨hsess, -⟩ := h
        subst hsess
        rfl

/-- Witness for C5: at cap 2 with two prior sessions the start call fails with
`AttemptsExceeded`; with one prior session it succeeds with attempt number 2. -/
theorem startSession_attempt_cap_witness :
    startQuizSessionService c5StoreFull ⟨1, 1, .en⟩ =
      (.error .attemptsExceeded, c5StoreFull) ∧
    c5StartResult.attemptNumber = countSessions c5Store 1 1 + 1 ∧
    c5StartResult.attemptNumber = 2 := by
  refine ⟨?_, ?_, by with_unfolding_all decide⟩
  · exact (startSession_attempt_cap c5StoreFull ⟨1, 1, .en⟩ ⟨1, .student, "alice"⟩
      c5Quiz 2 (by with_unfolding_all rfl) (by with_unfolding_all rfl)
      (by with_unfolding_all decide) (by with_unfolding_all rfl)).1
      (by with_unfolding_all decide)
  · exact (startSession_attempt_cap c5Store ⟨1, 1, .en⟩ ⟨1, .student, "alice"⟩
      c5Quiz 2 (by with_unfolding_all rfl) (by with_unfolding_all rfl)
      (by with_unfolding_all decide) (by with_unfolding_all rfl)).2
      c5StartResult (startQuizSessionService c5Store ⟨1, 1, .en⟩).2
      (by with_unfolding_all rfl)

/-- Success characterisation of the read-and-validate phase of submit. -/
theorem submitChecks_ok {store : Store} {sid : Nat} {d : SubmitData} {uid : Nat}
    {session : Session} {quiz : Quiz}
    (h : submitChecks store sid d uid = .ok (session, quiz)) :
    findSession store sid = some session ∧ session.user = uid ∧
      session.isCompleted = false := by
  unfold submitChecks at h
  split at h
  · simp at h
  · rename_i s hs
    by_cases h1 : s.user ≠ uid
    · rw [if_pos h1] at h
      simp at h
    · rw [if_neg h1] at h
      by_cases h2 : s.isCompleted = true
      · rw [if_pos h2] at h
        simp at h
      · rw [if_neg h2] at h
        by_cases h3 : d.durationSeconds < 0
        · rw [if_pos h3] at h
          simp at h
        · rw [if_neg h3] at h
          split at h
          · simp at h
          · simp only [Except.ok.injEq, Prod.mk.injEq] at h
            obtain ⟨h4, -⟩ := h
            subst h4
            exact ⟨hs, not_not.mp h1, by simpa using h2⟩

/-- `createNotificationService` never touches the sessions collection. -/
theorem createNotification_sessions (store : Store) (r : Nat)
    (t : NotificationType) (m : String) (e : Nat) (et : String) :
    (createNotificationService store r t m e et).2.sessions = store.sessions := by
  unfold createNotificationService
  split <;> rfl

/-- The notification loop never touches the sessions collection. -/
theorem notifyAll_sessions (rs : List Nat) (store : Store) (sid : Nat) (m : String) :
    (notifyAll store sid m rs).2.sessions = store.sessions := by
  induction rs generalizing store with
  | nil => rfl
  | cons r rest ih =>
    unfold notifyAll
    split
    · rename_i e store' hc
      have h2 := createNotification_sessions store r .quizGraded m sid "QuizSession"
      rw [hc] at h2
      exact h2
    · rename_i n store' hc
      have h2 := createNotification_sessions store r .quizGraded m sid "QuizSession"
      rw [hc] at h2
      rw [ih store']
      exact h2

/-- The completed session a successful submit writes back. -/
theorem submitWrite_eq {store : Store} {sid : Nat} {s : Session}
    (hs : findSession store sid = some s) (rs : List SessionResponse)
    (total f dur : ℚ) (p : PassStatus) :
    submitWrite store sid rs total f dur p =
      ({ store with sessions := store.sessions.map (fun t =>
          if t.id = sid then completeSession s rs total f dur p else t) },
        some (completeSession s rs total f dur p)) := by
  unfold submitWrite
  rw [hs]

/-- A found element replaced in place is found again. -/
theorem find?_map_replace (l : List Session) (sid : Nat) (s s' : Session)
    (hfind : l.find? (fun u => decide (u.id = sid)) = some s) (hs' : s'.id = sid) :
    (l.map (fun u => if u.id = sid then s' else u)).find?
      (fun u => decide (u.id = sid)) = some s' := by
  induction l with
  | nil => simp at hfind
  | cons a l ih =>
    simp only [List.map_cons]
    by_cases ha : a.id = sid
    · rw [if_pos ha]
      rw [List.find?_cons_of_pos _ (by simp [hs'])]
    · rw [if_neg ha]
      have hpa : ¬ ((fun u : Session => decide (u.id = sid)) a = true) := by simpa using ha
      rw [@List.find?_cons_of_neg Session (fun u => decide (u.id = sid)) a l hpa] at hfind
      rw [@List.find?_cons_of_neg Session (fun u => decide (u.id = sid)) a
        (l.map (fun u => if u.id = sid then s' else u)) hpa]
      exact ih hfind

/-- A session found by id has that id. -/
theorem findSession_id {store : Store} {sid : Nat} {s : Session}
    (h : findSession store sid = some s) : s.id = sid := by
  have := List.find?_some h
  simpa using this

/-- `completeSession` only sets score/completion fields. -/
theorem completeSession_id (s : Session) (rs : List SessionResponse)
    (t f dur : ℚ) (p : PassStatus) :
    (completeSession s rs t f dur p).id = s.id := rfl

/-- Submitting a session that is already completed rejects with
`AlreadyCompleted` before any write. -/
theorem submit_on_completed (store : Store) (sid : Nat) (d : SubmitData) (uid : Nat)
    (c : Session) (hfind : findSession store sid = some c) (hu : c.user = uid)
    (hic : c.isCompleted = true) :
    submitQuizSessionService store sid d uid = (.error .alreadyCompleted, store) := by
  have hchecks : submitChecks store sid d uid = .error .alreadyCompleted := by
    unfold submitChecks
    simp only [hfind]
    rw [if_neg (by simp [hu]), if_pos hic]
  unfold submitQuizSessionService
  simp only [hchecks]

/-- C4.  One-shot submission: after a successful submit, a second submit on the
same session id by the same user fails with `AlreadyCompleted` and returns the
store unchanged — the session's persisted score fields stay exactly as the
first call left them. -/
theorem submitSession_one_shot
    (store : Store) (sid : Nat) (d d₂ : SubmitData) (uid : Nat)
    (s₁ : Session) (store₁ : Store)
    (h : submitQuizSessionService store sid d uid = (.ok s₁, store₁)) :
    submitQuizSessionService store₁ sid d₂ uid = (.error .alreadyCompleted, store₁) := by
  unfold submitQuizSessionService at h
  split at h
  · simp at h
  · rename_i session quiz hc
    obtain ⟨hfs, huser, -⟩ := submitChecks_ok hc
    unfold submitAfterRead at h
    split at h
    · simp at h
    · rename_i rs total hg
      dsimp only at h
      rw [submitWrite_eq hfs] at h
      dsimp only at h
      split at h
      · simp at h
      · rename_i u store₂ hn
        simp only [Prod.mk.injEq, Except.ok.injEq] at h
        obtain ⟨-, h2st⟩ := h
        rw [← h2st]
        have h2 := congrArg (fun p => p.2.sessions) hn
        dsimp only at h2
        rw [notifyAll_sessions] at h2
        dsimp only at h2
        refine submit_on_completed store₂ sid d₂ uid
          (completeSession session rs total
            (finalScoreOf total session.maxPossibleScore session.quizGlobalScore)
            d.durationSeconds
            (passStatusOf (finalScoreOf total session.maxPossibleScore session.quizGlobalScore)
              session.quizGlobalScore)) ?_ ?_ ?_
        · unfold findSession
          rw [← h2]
          refine find?_map_replace store.sessions sid session _ hfs ?_
          rw [completeSession_id]
          exact findSession_id hfs
        · simpa [completeSession] using huser
        · simp [completeSession]

/-- Witness for C4: the example submission succeeds once; re-submitting the
same session id fails with `AlreadyCompleted` and leaves the store unchanged. -/
theorem submitSession_one_shot_witness :
    submitQuizSessionService exSubmitStore 1 exSubmit 1 =
      (.error .alreadyCompleted, exSubmitStore) :=
  submitSession_one_shot exStore 1 exSubmit exSubmit 1 exSubmitResult exSubmitStore
    (by with_unfolding_all rfl)

/-- The accumulated total of the grading loop is the sum of the per-response
earned scores. -/
theorem gradeResponses_total {store : Store} {quiz : Quiz} {lang : Lang}
    {srs : List SubmittedResponse} {out : List SessionResponse} {total : ℚ}
    (h : gradeResponses store quiz lang srs = .ok (out, total)) :
    total = (out.map SessionResponse.scoreEarned).sum := by
  induction srs generalizing out total with
  | nil =>
    simp only [gradeResponses, Except.ok.injEq, Prod.mk.injEq] at h
    obtain ⟨h1, h2⟩ := h
    subst h1
    subst h2
    simp
  | cons sr rest ih =>
    unfold gradeResponses at h
    split at h
    · simp at h
    · rename_i p q score hlook
      split at h
      · simp at h
      · rename_i p' rs' total' hrec
        simp only [Except.ok.injEq, Prod.mk.injEq] at h
        obtain ⟨h1, h2⟩ := h
        subst h1
        subst h2
        simp [gradedResponse, ih hrec]

/-- Populating question views does not change any earned score. -/
theorem populateResponses_scores (store : Store) (s : Session) :
    (populateResponses store s).responses.map SessionResponse.scoreEarned =
      s.responses.map SessionResponse.scoreEarned := by
  unfold populateResponses
  dsimp only
  rw [List.map_map]
  apply List.map_congr_left
  intro r _
  rcases r with ⟨rq, ua, ic, se, tt⟩
  cases rq with
  | ref qid =>
    dsimp only [Function.comp]
    cases findQuestion store qid <;> rfl
  | view q => rfl

/-- C3.  Score aggregation: a successful submit returns a session whose
`totalScoreEarned` is the sum of the responses' `scoreEarned`, whose
`finalCalculatedScore` is `(total / maxPossibleScore) * quizGlobalScore`
guarded to 0 when `maxPossibleScore` is not positive (no division by zero),
and whose `passStatus` is `passed` exactly when
`finalCalculatedScore / quizGlobalScore ≥ 7/10`. -/
theorem submitSession_score_aggregation
    (store : Store) (sid : Nat) (d : SubmitData) (uid : Nat)
    (s : Session) (st : Store)
    (h : submitQuizSessionService store sid d uid = (.ok s, st)) :
    s.totalScoreEarned = (s.responses.map SessionResponse.scoreEarned).sum ∧
    s.finalCalculatedScore =
      (if 0 < s.maxPossibleScore
        then s.totalScoreEarned / s.maxPossibleScore * s.quizGlobalScore else 0) ∧
    s.passStatus = some (if (7 : ℚ) / 10 ≤ s.finalCalculatedScore / s.quizGlobalScore
      then PassStatus.passed else PassStatus.failed) := by
  unfold submitQuizSessionService at h
  split at h
  · simp at h
  · rename_i session quiz hc
    obtain ⟨hfs, -, -⟩ := submitChecks_ok hc
    unfold submitAfterRead at h
    split at h
    · simp at h
    · rename_i rs total hg
      dsimp only at h
      rw [submitWrite_eq hfs] at h
      dsimp only at h
      split at h
      · simp at h
      · rename_i u store₂ hn
        simp only [Prod.mk.injEq, Except.ok.injEq] at h
        obtain ⟨hs, -⟩ := h
        subst hs
        refine ⟨?_, ?_, ?_⟩
        · rw [populateResponses_scores]
          simpa [populateResponses, completeSession] using gradeResponses_total hg
        · simp [populateResponses, completeSession, finalScoreOf]
        · simp [populateResponses, completeSession, passStatusOf]

/-- Witness for C3, the spec's worked example: globalScore 20, four 1-point
questions, 3 answered correctly — total 3, final score 15, status passed. -/
theorem submitSession_score_aggregation_witness :
    (submitQuizSessionService exStore 1 exSubmit 1).1 = .ok exSubmitResult ∧
    exSubmitResult.totalScoreEarned =
      (exSubmitResult.responses.map SessionResponse.scoreEarned).sum ∧
    exSubmitResult.totalScoreEarned = 3 ∧
    exSubmitResult.maxPossibleScore = 4 ∧
    exSubmitResult.quizGlobalScore = 20 ∧
    exSubmitResult.finalCalculatedScore = 15 ∧
    exSubmitResult.passStatus = some .passed := by
  have h : submitQuizSessionService exStore 1 exSubmit 1 =
      (.ok exSubmitResult, exSubmitStore) := by
    with_unfolding_all rfl
  obtain ⟨h1, -, -⟩ :=
    submitSession_score_aggregation exStore 1 exSubmit 1 exSubmitResult exSubmitStore h
  exact ⟨by with_unfolding_all rfl, h1, by with_unfolding_all rfl,
    by with_unfolding_all rfl, by with_unfolding_all rfl,
    by with_unfolding_all rfl, by with_unfolding_all rfl⟩

/-- C2 (amended).  The source grades a multi-select by comparing LIST length
plus membership (`length === && every(includes)`), not sets.  When neither the
normalized submitted list nor the correct-text list contains duplicates this
criterion coincides with the spec's set equality; and submitting only one of
two correct choices is graded incorrect (no partial credit), shown on the full
submit path. -/
theorem qcm_grading_exact_match :
    (∀ lang cs ans, (normalizeAnswers ans).Nodup → (qcmCorrectTexts cs lang).Nodup →
      (gradeQCM lang cs ans = true ↔
        specAnswerSetEq (normalizeAnswers ans) (qcmCorrectTexts cs lang))) ∧
    (submitQuizSessionService c2Store 1 c2OneSubmit 1).1.toOption.map
      (fun s => s.responses.map SessionResponse.isCorrect) = some [false] := by
  constructor
  · intro lang cs ans hnu hnc
    unfold gradeQCM
    dsimp only
    rw [Bool.and_eq_true, decide_eq_true_eq, List.all_eq_true]
    constructor
    · rintro ⟨hlen, hmem⟩
      unfold specAnswerSetEq
      have hsub : ((normalizeAnswers ans).map Option.some).toFinset ⊆
          (qcmCorrectTexts cs lang).toFinset := by
        intro x hx
        rw [List.mem_toFinset, List.mem_map] at hx
        obtain ⟨ua, hua, rfl⟩ := hx
        rw [List.mem_toFinset]
        have hc := hmem ua hua
        simpa using hc
      have hcard1 : ((normalizeAnswers ans).map Option.some).toFinset.card =
          (normalizeAnswers ans).length := by
        rw [List.toFinset_card_of_nodup (hnu.map (Option.some_injective _))]
        simp
      have hcard2 : (qcmCorrectTexts cs lang).toFinset.card =
          (qcmCorrectTexts cs lang).length :=
        List.toFinset_card_of_nodup hnc
      apply Finset.eq_of_subset_of_card_le hsub
      rw [hcard1, hcard2, hlen]
    · intro hset
      unfold specAnswerSetEq at hset
      constructor
      · have hcard := congrArg Finset.card hset
        rw [List.toFinset_card_of_nodup (hnu.map (Option.some_injective _)),
          List.toFinset_card_of_nodup hnc, List.length_map] at hcard
        exact hcard.symm
      · intro ua hua
        have hx : (Option.some ua) ∈ ((normalizeAnswers ans).map Option.some).toFinset := by
          rw [List.mem_toFinset, List.mem_map]
          exact ⟨ua, hua, rfl⟩
        rw [hset, List.mem_toFinset] at hx
        simpa using hx
  · with_unfolding_all rfl

/-- Witness for C2's amended statement: a duplicate-free full-match submission
is graded correct and indeed set-equal. -/
theorem qcm_grading_exact_match_witness :
    gradeQCM .en c2Choices (.list ["b", "a"]) = true ∧
    specAnswerSetEq (normalizeAnswers (AnswerValue.list ["b", "a"]))
      (qcmCorrectTexts c2Choices .en) := by
  have h := qcm_grading_exact_match.1 .en c2Choices (.list ["b", "a"])
    (by with_unfolding_all decide) (by with_unfolding_all decide)
  exact ⟨by with_unfolding_all decide, h.mp (by with_unfolding_all decide)⟩

/-- Counterexample to C2 as stated: against a question whose two choices `a`
and `b` are both correct, the submission `["a", "a"]` is marked correct by the
code although its value SET differs from the correct-text set — grading is not
set equality. -/
theorem qcm_grading_set_equality_counterexample :
    (submitQuizSessionService c2Store 1 c2DupSubmit 1).1.toOption.map
      (fun s => s.responses.map SessionResponse.isCorrect) = some [true] ∧
    ¬ specAnswerSetEq (normalizeAnswers (AnswerValue.list ["a", "a"]))
      (qcmCorrectTexts c2Choices .en) := by
  constructor
  · with_unfolding_all rfl
  · with_unfolding_all decide

/-- C6 (amended).  The notification loop is NOT protected by any catch: once a
submit call has passed validation and grading, it either succeeds, or it fails
with an error surfaced to the caller — and in the failure case (the
notification sink being the only step left) the completed, graded session has
ALREADY been persisted and remains in storage even though the call reports an
error. -/
theorem submitSession_notification_failure
    (store : Store) (sid : Nat) (d : SubmitData) (uid : Nat)
    (session : Session) (quiz : Quiz) (rs : List SessionResponse) (total : ℚ)
    (hc : submitChecks store sid d uid = .ok (session, quiz))
    (hg : gradeResponses store quiz session.language d.responses = .ok (rs, total)) :
    (∃ s st, submitQuizSessionService store sid d uid = (.ok s, st)) ∨
    (∃ e st, submitQuizSessionService store sid d uid = (.error e, st) ∧
      findSession st sid = some (completeSession session rs total
        (finalScoreOf total session.maxPossibleScore session.quizGlobalScore)
        d.durationSeconds
        (passStatusOf (finalScoreOf total session.maxPossibleScore session.quizGlobalScore)
          session.quizGlobalScore)) ∧
      (completeSession session rs total
        (finalScoreOf total session.maxPossibleScore session.quizGlobalScore)
        d.durationSeconds
        (passStatusOf (finalScoreOf total session.maxPossibleScore session.quizGlobalScore)
          session.quizGlobalScore)).isCompleted = true) := by
  obtain ⟨hfs, -, -⟩ := submitChecks_ok hc
  unfold submitQuizSessionService
  rw [hc]
  dsimp only
  unfold submitAfterRead
  rw [hg]
  dsimp only
  rw [submitWrite_eq hfs]
  dsimp only
  split
  · rename_i e store₂ hn
    refine Or.inr ⟨e, store₂, rfl, ?_, rfl⟩
    have h2 := congrArg (fun p => p.2.sessions) hn
    dsimp only at h2
    rw [notifyAll_sessions] at h2
    dsimp only at h2
    unfold findSession
    rw [← h2]
    refine find?_map_replace store.sessions sid session _ hfs ?_
    rw [completeSession_id]
    exact findSession_id hfs
  · rename_i u store₂ hn
    exact Or.inl ⟨_, store₂, rfl⟩

/-- Witness for C6's amended statement at the concrete failing store. -/
theorem submitSession_notification_failure_witness :
    (∃ s st, submitQuizSessionService c6Store 1 exSubmit 1 = (.ok s, st)) ∨
    (∃ e st, submitQuizSessionService c6Store 1 exSubmit 1 = (.error e, st) ∧
      findSession st 1 = some (completeSession exSession c6Graded.1 c6Graded.2
        (finalScoreOf c6Graded.2 exSession.maxPossibleScore exSession.quizGlobalScore)
        exSubmit.durationSeconds
        (passStatusOf (finalScoreOf c6Graded.2 exSession.maxPossibleScore
          exSession.quizGlobalScore) exSession.quizGlobalScore)) ∧
      (completeSession exSession c6Graded.1 c6Graded.2
        (finalScoreOf c6Graded.2 exSession.maxPossibleScore exSession.quizGlobalScore)
        exSubmit.durationSeconds
        (passStatusOf (finalScoreOf c6Graded.2 exSession.maxPossibleScore
          exSession.quizGlobalScore) exSession.quizGlobalScore)).isCompleted = true) :=
  submitSession_notification_failure c6Store 1 exSubmit 1 exSession c6Quiz
    c6Graded.1 c6Graded.2 (by with_unfolding_all rfl) (by with_unfolding_all rfl)

/-- Counterexample to C6 as stated: on `c6Store` the submit call itself FAILS
with the notification error (nothing catches or logs it), even though the
session was already persisted as completed and graded. -/
theorem submitSession_notification_failure_counterexample :
    (submitQuizSessionService c6Store 1 exSubmit 1).1 =
      .error .notificationRecipientNotFound ∧
    ((submitQuizSessionService c6Store 1 exSubmit 1).2.sessions.map
      (fun s => (s.id, s.isCompleted, s.totalScoreEarned, s.passStatus))) =
      [(1, true, 3, some .passed)] := by
  constructor
  · with_unfolding_all rfl
  · with_unfolding_all rfl

/-- C9 (amended).  The only `isCompleted` test sits in the initial read; the
completing `findByIdAndUpdate` is keyed on the session id alone.  So a second
SEQUENTIAL submit on a completed session fails with `AlreadyCompleted`, yet
the storage write itself still succeeds unconditionally on a completed
session — the transition is a plain read-then-write, not an atomic
check-and-set, and an interleaving where both calls read before either writes
lets both succeed (see the race counterexample). -/
theorem submit_isCompleted_read_then_write
    (store : Store) (sid : Nat) (d : SubmitData) (uid : Nat) (s : Session)
    (rs : List SessionResponse) (total f : ℚ) (p : PassStatus)
    (hfind : findSession store sid = some s) (hu : s.user = uid)
    (hic : s.isCompleted = true) :
    submitQuizSessionService store sid d uid = (.error .alreadyCompleted, store) ∧
    (submitWrite store sid rs total f d.durationSeconds p).2 =
      some (completeSession s rs total f d.durationSeconds p) := by
  refine ⟨submit_on_completed store sid d uid s hfind hu hic, ?_⟩
  rw [submitWrite_eq hfind]

/-- Witness for C9's amended statement on the persisted completed session. -/
theorem submit_isCompleted_read_then_write_witness :
    submitQuizSessionService exSubmitStore 1 exSubmit 1 =
      (.error .alreadyCompleted, exSubmitStore) ∧
    (submitWrite exSubmitStore 1 [] 0 0 exSubmit.durationSeconds .failed).2 =
      some (completeSession exCompletedSession [] 0 0 exSubmit.durationSeconds .failed) :=
  submit_isCompleted_read_then_write exSubmitStore 1 exSubmit 1 exCompletedSession
    [] 0 0 .failed (by with_unfolding_all rfl) (by with_unfolding_all rfl)
    (by with_unfolding_all rfl)

/-- Counterexample to C9 as stated: in the interleaving of two racing submits
where both initial reads happen before either write, BOTH calls succeed — not
exactly one, and the loser never observes `AlreadyCompleted`, because the
storage transition is not an atomic conditional update. -/
theorem submit_race_counterexample :
    (submitRace exStore 1 exSubmit 1).1.1.isOk = true ∧
    (submitRace exStore 1 exSubmit 1).1.2.isOk = true := by
  constructor
  · with_unfolding_all rfl
  · with_unfolding_all rfl

/-- A quiz found by id is a stored quiz. -/
theorem findQuiz_mem {store : Store} {qid : Nat} {q : Quiz}
    (h : findQuiz store qid = some q) : q ∈ store.quizzes :=
  List.mem_of_find?_eq_some h

/-- `createQuizService` either leaves the quizzes untouched or appends exactly
one quiz, and that quiz is unpublished (the source computes
`isPublished = ... ? false : false`). -/
theorem createQuiz_quizzes (oracle : SampleOracle) (store : Store) (d : CreateQuizData) :
    (createQuizService oracle store d).2.quizzes = store.quizzes ∨
    ∃ nq, (createQuizService oracle store d).2.quizzes = store.quizzes ++ [nq] ∧
      nq.isPublished = false := by
  unfold createQuizService
  split
  · exact Or.inl rfl
  · split
    · exact Or.inl rfl
    · split
      · exact Or.inl rfl
      · split
        · exact Or.inl rfl
        · dsimp only
          split
          · exact Or.inl rfl
          · exact Or.inr ⟨_, rfl, rfl⟩

/-- `updateQuizService` never changes any quiz's type or published flag. -/
theorem updateQuiz_preserves_flags (store : Store) (quizId : Nat)
    (d : UpdateQuizData) (r : Requester) (q' : Quiz)
    (h : q' ∈ (updateQuizService store quizId d r).2.quizzes) :
    ∃ q ∈ store.quizzes, q'.quizType = q.quizType ∧ q'.isPublished = q.isPublished := by
  unfold updateQuizService at h
  split at h
  · exact ⟨q', h, rfl, rfl⟩
  · rename_i quiz hfq
    split at h
    · exact ⟨q', h, rfl, rfl⟩
    · split at h
      · exact ⟨q', h, rfl, rfl⟩
      · dsimp only at h
        split at h
        · exact ⟨q', h, rfl, rfl⟩
        · rename_i qs hqs
          dsimp only at h
          rw [List.mem_map] at h
          obtain ⟨q, hq, rfl⟩ := h
          by_cases hid : q.id = quizId
          · rw [if_pos hid]
            exact ⟨quiz, findQuiz_mem hfq, rfl, rfl⟩
          · rw [if_neg hid]
            exact ⟨q, hq, rfl, rfl⟩

/-- `publishQuizService` preserves the revision-never-published invariant: the
revision guard rejects the only transition that could break it. -/
theorem publishQuiz_preserves_invariant (store : Store) (quizId : Nat)
    (status : Bool) (r : Requester) (hinv : RevisionNeverPublished store) :
    RevisionNeverPublished (publishQuizService store quizId status r).2 := by
  unfold publishQuizService
  split
  · exact hinv
  · rename_i quiz hfq
    split
    · exact hinv
    · split
      · exact hinv
      · rename_i hrev
        split
        · exact hinv
        · split
          · exact hinv
          · intro q' hq'
            dsimp only at hq'
            rw [List.mem_map] at hq'
            obtain ⟨q, hq, rfl⟩ := hq'
            by_cases hid : q.id = quizId
            · rw [if_pos hid]
              intro hrevq
              dsimp only at hrevq ⊢
              cases hstatus : status with
              | false => rfl
              | true => exact absurd ⟨hrevq, hstatus⟩ hrev
            · rw [if_neg hid]
              exact hinv q hq

/-- C7.  A revision quiz is never published: every quiz-mutating operation
preserves the invariant that stored revision quizzes are unpublished; every
quiz `createQuizService` produces is unpublished; and `publishQuizService`
rejects publishing a revision quiz with `RevisionCannotBePublished` for every
authorized requester, leaving the store unchanged. -/
theorem revision_quiz_never_published :
    (∀ s s', RevisionNeverPublished s → QuizOpStep s s' → RevisionNeverPublished s') ∧
    (∀ oracle store d quiz store',
      createQuizService oracle store d = (.ok quiz, store') →
      quiz.isPublished = false) ∧
    (∀ store qid quiz status r, findQuiz store qid = some quiz →
      quiz.quizType = QuizType.revision → status = true →
      ((quiz.creator = r.id ∧ r.role = UserRole.teacher) ∨
        (r.role = UserRole.admin ∨ r.role = UserRole.manager)) →
      publishQuizService store qid status r =
        (.error .revisionCannotBePublished, store)) := by
  refine ⟨?_, ?_, ?_⟩
  · intro s s' hinv hstep
    cases hstep with
    | create oracle store d result store' h =>
      have hsh := createQuiz_quizzes oracle s d
      rw [h] at hsh
      dsimp only at hsh
      cases hsh with
      | inl heq =>
        intro q hq
        rw [heq] at hq
        exact hinv q hq
      | inr hex =>
        obtain ⟨nq, heq, hnpub⟩ := hex
        intro q hq
        rw [heq, List.mem_append] at hq
        cases hq with
        | inl hq => exact hinv q hq
        | inr hq =>
          intro _
          rw [List.mem_singleton] at hq
          rw [hq]
          exact hnpub
    | update store quizId d r result store' h =>
      intro q' hq'
      have hmem : q' ∈ (updateQuizService s quizId d r).2.quizzes := by
        rw [h]
        exact hq'
      obtain ⟨q, hqmem, ht, hp⟩ := updateQuiz_preserves_flags s quizId d r q' hmem
      intro hrev
      rw [hp]
      exact hinv q hqmem (ht ▸ hrev)
    | publish store quizId status r result store' h =>
      have hpres := publishQuiz_preserves_invariant s quizId status r hinv
      rw [h] at hpres
      exact hpres
  · intro oracle store d quiz store' h
    unfold createQuizService at h
    split at h
    · simp at h
    · split at h
      · simp at h
      · split at h
        · simp at h
        · split at h
          · simp at h
          · dsimp only at h
            split at h
            · simp at h
            · simp only [Prod.mk.injEq, Except.ok.injEq] at h
              obtain ⟨hq, -⟩ := h
              rw [← hq]
  · intro store qid quiz status r hfq hrev hst hauth
    unfold publishQuizService
    simp only [hfq]
    rw [if_neg ?_, if_pos ⟨hrev, hst⟩]
    rintro ⟨hn1, hn2⟩
    cases hauth with
    | inl ha => exact hn1 ha
    | inr ha => exact hn2 ha

/-- Witness for C7: a student-created revision quiz comes back unpublished and
the invariant survives the creation step. -/
theorem revision_quiz_never_published_witness :
    RevisionNeverPublished c7Store ∧ RevisionNeverPublished c7StoreAfter ∧
    (createQuizService takeOracle c7Store c7CreateData).1.toOption.map
      Quiz.isPublished = some false := by
  refine ⟨by with_unfolding_all decide, ?_, by with_unfolding_all rfl⟩
  exact revision_quiz_never_published.1 c7Store c7StoreAfter
    (by with_unfolding_all decide)
    (QuizOpStep.create takeOracle c7Store c7CreateData
      (createQuizService takeOracle c7Store c7CreateData).1 c7StoreAfter
      (by with_unfolding_all rfl))

/-- C8.  `generate` quiz creation: when the chapters hold fewer matching
questions than requested, the call fails with `InsufficientQuestions` and the
store is unchanged (no quiz is created); otherwise the quiz is created with
exactly the oracle's without-replacement draw of `n` matching questions, each
at the default score 1. -/
theorem createQuiz_generate_sampling
    (oracle : SampleOracle) (store : Store) (d : CreateQuizData) (creator : User)
    (tr : Training) (chapterIds : List Nat) (n : Nat) (difficulty : Option Difficulty)
    (hu : findUser store d.creatorId = some creator)
    (h1 : ¬ (creator.role = UserRole.student ∧ d.quizType ≠ QuizType.revision))
    (h2 : ¬ (creator.role = UserRole.teacher ∧ d.quizType = QuizType.revision))
    (htr : findTraining store d.trainingId = some tr)
    (hcfg : d.questionsConfig = some (.generate chapterIds n difficulty))
    (hch : chapterIds ≠ []) (hn : n ≠ 0) :
    ((matchingQuestions store chapterIds difficulty).length < n →
      createQuizService oracle store d = (.error .insufficientQuestions, store)) ∧
    (n ≤ (matchingQuestions store chapterIds difficulty).length →
      ∃ quiz store', createQuizService oracle store d = (.ok quiz, store') ∧
        quiz.questions =
          (oracle.sample (matchingQuestions store chapterIds difficulty) n).map
            (fun q => { questionId := q.id, score := 1 }) ∧
        quiz.questions.length = n ∧
        (∀ e ∈ quiz.questions, e.score = 1 ∧
          e.questionId ∈ (matchingQuestions store chapterIds difficulty).map Question.id) ∧
        (((matchingQuestions store chapterIds difficulty).map Question.id).Nodup →
          (quiz.questions.map ManifestEntry.questionId).Nodup)) := by
  constructor
  · intro hlt
    have hgen : generateQuestionsForQuiz oracle store chapterIds n difficulty =
        .error .insufficientQuestions := by
      unfold generateQuestionsForQuiz
      rw [if_neg hch, if_neg hn]
      dsimp only
      rw [if_pos]
      rw [oracle.length_sample]
      omega
    unfold createQuizService
    simp only [hu, htr, hcfg]
    rw [if_neg h1, if_neg h2]
    rw [if_neg (not_or.mpr ⟨hch, hn⟩), hgen]
  · intro hge
    have hgen : generateQuestionsForQuiz oracle store chapterIds n difficulty =
        .ok ((oracle.sample (matchingQuestions store chapterIds difficulty) n).map
          (fun q => { questionId := q.id, score := 1 })) := by
      unfold generateQuestionsForQuiz
      rw [if_neg hch, if_neg hn]
      dsimp only
      rw [if_neg]
      rw [oracle.length_sample]
      omega
    have hmain : ∃ quiz store', createQuizService oracle store d = (.ok quiz, store') ∧
        quiz.questions =
          (oracle.sample (matchingQuestions store chapterIds difficulty) n).map
            (fun q => { questionId := q.id, score := 1 }) := by
      unfold createQuizService
      simp only [hu, htr, hcfg]
      rw [if_neg h1, if_neg h2]
      rw [if_neg (not_or.mpr ⟨hch, hn⟩), hgen]
      exact ⟨_, _, rfl, rfl⟩
    obtain ⟨quiz, store', heq, hqs⟩ := hmain
    refine ⟨quiz, store', heq, hqs, ?_, ?_, ?_⟩
    · rw [hqs, List.length_map, oracle.length_sample]
      omega
    · intro e he
      rw [hqs, List.mem_map] at he
      obtain ⟨q, hq, rfl⟩ := he
      exact ⟨rfl, List.mem_map.mpr ⟨q, oracle.mem_sample _ _ _ hq, rfl⟩⟩
    · intro hnd
      rw [hqs, List.map_map]
      have hcomp : (ManifestEntry.questionId ∘
          (fun q : Question => ({ questionId := q.id, score := 1 } : ManifestEntry))) =
          Question.id := by
        funext q
        rfl
      rw [hcomp]
      exact oracle.nodup_sample _ n hnd

/-- Witness for C8: with only the two questions 31 and 32 in chapter 1, asking
for three fails with `InsufficientQuestions` and creates nothing, while asking
for two creates a quiz holding exactly both questions at score 1. -/
theorem createQuiz_generate_sampling_witness :
    createQuizService takeOracle c8Store (c8Data 3) =
      (.error .insufficientQuestions, c8Store) ∧
    (∃ quiz store', createQuizService takeOracle c8Store (c8Data 2) = (.ok quiz, store') ∧
      quiz.questions =
        (takeOracle.sample (matchingQuestions c8Store [1] none) 2).map
          (fun q => { questionId := q.id, score := 1 }) ∧
      quiz.questions.length = 2 ∧
      (∀ e ∈ quiz.questions, e.score = 1 ∧
        e.questionId ∈ (matchingQuestions c8Store [1] none).map Question.id) ∧
      (((matchingQuestions c8Store [1] none).map Question.id).Nodup →
        (quiz.questions.map ManifestEntry.questionId).Nodup)) := by
  constructor
  · exact (createQuiz_generate_sampling takeOracle c8Store (c8Data 3) ⟨5, .admin, "root"⟩
      ⟨1, [], []⟩ [1] 3 none (by with_unfolding_all rfl) (by with_unfolding_all decide)
      (by with_unfolding_all decide) (by with_unfolding_all rfl)
      (by with_unfolding_all rfl) (by with_unfolding_all decide)
      (by with_unfolding_all decide)).1 (by with_unfolding_all decide)
  · exact (createQuiz_generate_sampling takeOracle c8Store (c8Data 2) ⟨5, .admin, "root"⟩
      ⟨1, [], []⟩ [1] 2 none (by with_unfolding_all rfl) (by with_unfolding_all decide)
      (by with_unfolding_all decide) (by with_unfolding_all rfl)
      (by with_unfolding_all rfl) (by with_unfolding_all decide)
      (by with_unfolding_all decide)).2 (by with_unfolding_all decide)

/-- C10.  `submitSession` validates each submitted response only against the
manifest map: the concrete two-question quiz accepts the submission that
answers question 11 three times and question 12 never — all three duplicates
are graded and summed independently, so `totalScoreEarned` (3) exceeds
`maxPossibleScore` (2) and `finalCalculatedScore` (30) exceeds
`quizGlobalScore` (20). -/
theorem submit_duplicate_responses_counted :
    (submitQuizSessionService c10Store 1 c10Submit 1).1 = .ok c10Result ∧
    c10Submit.responses.map (fun r => r.question) = [11, 11, 11] ∧
    c10Result.responses.length = 3 ∧
    c10Result.totalScoreEarned = 3 ∧
    c10Result.maxPossibleScore = 2 ∧
    c10Result.maxPossibleScore < c10Result.totalScoreEarned ∧
    c10Result.finalCalculatedScore = 30 ∧
    c10Result.quizGlobalScore = 20 ∧
    c10Result.quizGlobalScore < c10Result.finalCalculatedScore := by
  refine ⟨?_, ?_, ?_, ?_, ?_, ?_, ?_, ?_, ?_⟩
  · with_unfolding_all rfl
  · with_unfolding_all rfl
  · with_unfolding_all rfl
  · with_unfolding_all rfl
  · with_unfolding_all rfl
  · with_unfolding_all decide
  · with_unfolding_all rfl
  · with_unfolding_all rfl
  · with_unfolding_all decide
